import Mathlib

/-!
# Verification of the audiomosh-proxy server core

Shallow embedding of the Express server in `server.js` (enhanced variant):
the in-memory response cache, the per-client rate limiter, the JSON proxy
routes (`/api/freesound`, `/api/pexels`), the streaming download routes, and
the cache-management routes.  Timestamps are `Nat` milliseconds (`Date.now()`);
JS `Map`s are association lists with set-overwrite semantics.
-/

set_option autoImplicit false

namespace AudiomoshProxy

/-! ## JS `Map` model (association list, unique keys, `set` overwrites) -/

/-- `Map.get(k)`: first binding of `k`, if any. -/
def mapGet {α : Type} (m : List (String × α)) (k : String) : Option α :=
  match m with
  | [] => none
  | (k', v) :: rest => if k' = k then some v else mapGet rest k

/-- `Map.set(k, v)`: overwrite the binding of `k` in place, or append it. -/
def mapSet {α : Type} (m : List (String × α)) (k : String) (v : α) :
    List (String × α) :=
  match m with
  | [] => [(k, v)]
  | (k', v') :: rest =>
    if k' = k then (k, v) :: rest else (k', v') :: mapSet rest k v

theorem mapGet_mapSet_self {α : Type} (m : List (String × α)) (k : String) (v : α) :
    mapGet (mapSet m k v) k = some v := by
  induction m with
  | nil => simp [mapGet, mapSet]
  | cons hd tl ih =>
    obtain ⟨k', v'⟩ := hd
    by_cases h : k' = k
    · simp [mapGet, mapSet, h]
    · simp [mapGet, mapSet, h, ih]

theorem mapGet_mapSet_ne {α : Type} (m : List (String × α)) (k k' : String) (v : α)
    (h : k' ≠ k) : mapGet (mapSet m k v) k' = mapGet m k' := by
  induction m with
  | nil => simp [mapGet, mapSet, Ne.symm h]
  | cons hd tl ih =>
    obtain ⟨k₀, v₀⟩ := hd
    by_cases hk : k₀ = k
    · subst hk
      simp [mapGet, mapSet, Ne.symm h]
    · simp [mapGet, mapSet, hk, ih]

/-! ## Fixed configuration constants (from the top of the server file) -/

/-- `CACHE_TTL = 5 * 60 * 1000` — five minutes, in milliseconds. -/
def CACHE_TTL : Nat := 5 * 60 * 1000

/-- `RATE_LIMIT_WINDOW = 60 * 1000` — one minute, in milliseconds. -/
def RATE_LIMIT_WINDOW : Nat := 60 * 1000

/-- `RATE_LIMIT_MAX = 100` — requests per window per client. -/
def RATE_LIMIT_MAX : Nat := 100

/-! ## JSON bodies

Every response body the routes build is a flat JSON object of string and
number fields, or an opaque upstream JSON payload forwarded as-is. -/

/-- A JSON field value appearing in the server's own response objects. -/
inductive JVal where
  | str (v : String)
  | num (v : Nat)
deriving DecidableEq

/-- A response body: a flat object built by the server, or the decoded
upstream payload forwarded verbatim (opaque to the proxy). -/
inductive Body where
  | obj (fields : List (String × JVal))
  | payload (data : String)
deriving DecidableEq

/-- Look up a field of an object body (`none` for an opaque payload). -/
def bodyField (b : Body) (k : String) : Option JVal :=
  match b with
  | .obj fields => mapGet fields k
  | .payload _ => none

/-- An HTTP response as the JSON routes produce it: `res.status(s).json(body)`. -/
structure Response where
  status : Nat
  body : Body
deriving DecidableEq

/-! ## Rate limiter (`rateLimitMiddleware`) -/

/-- One entry of the `rateLimit` map: `{ count, resetTime }`. -/
structure RateLimitEntry where
  count : Nat
  resetTime : Nat
deriving DecidableEq

/-- Outcome of the rate-limit stage: pass to the next stage, or respond 429. -/
inductive RateDecision where
  | allowed
  | rejected (retryAfter : Nat)
deriving DecidableEq

/-- `Math.ceil(a / b)` on non-negative integers, `b > 0`. -/
def jsCeilDiv (a b : Nat) : Nat := (a + b - 1) / b

/-- `rateLimitMiddleware`, embedded.  The JS checks `rateLimit.has(clientIp)`
and then reads the entry; here the two collapse into one `mapGet`.  A fresh
client gets `{count: 1, resetTime: now + RATE_LIMIT_WINDOW}` and passes.  An
existing entry is reset when `now > limit.resetTime` and incremented
otherwise; the request is rejected when the resulting count exceeds
`RATE_LIMIT_MAX`, with `retryAfter = Math.ceil((limit.resetTime - now)/1000)`. -/
def rateLimitMiddleware (rl : List (String × RateLimitEntry)) (clientIp : String)
    (now : Nat) : List (String × RateLimitEntry) × RateDecision :=
  match mapGet rl clientIp with
  | none =>
    (mapSet rl clientIp { count := 1, resetTime := now + RATE_LIMIT_WINDOW },
     .allowed)
  | some limit =>
    let limit' :=
      if now > limit.resetTime then
        { count := 1, resetTime := now + RATE_LIMIT_WINDOW }
      else
        { limit with count := limit.count + 1 }
    let rl' := mapSet rl clientIp limit'
    if limit'.count > RATE_LIMIT_MAX then
      (rl', .rejected (jsCeilDiv (limit'.resetTime - now) 1000))
    else
      (rl', .allowed)

/-- The rate-limiter contract exactly as the specification states it: the
window is reset (count back to 1) as soon as `now >= windowResetAt`. -/
def rateLimitSpecGe (rl : List (String × RateLimitEntry)) (clientIp : String)
    (now : Nat) : List (String × RateLimitEntry) × RateDecision :=
  match mapGet rl clientIp with
  | none =>
    (mapSet rl clientIp { count := 1, resetTime := now + RATE_LIMIT_WINDOW },
     .allowed)
  | some limit =>
    if now ≥ limit.resetTime then
      (mapSet rl clientIp { count := 1, resetTime := now + RATE_LIMIT_WINDOW },
       .allowed)
    else
      let cnt := limit.count + 1
      if cnt > RATE_LIMIT_MAX then
        (mapSet rl clientIp { count := cnt, resetTime := limit.resetTime },
         .rejected (jsCeilDiv (limit.resetTime - now) 1000))
      else
        (mapSet rl clientIp { count := cnt, resetTime := limit.resetTime },
         .allowed)

/-- The rate-limiter contract amended to the code's boundary: the window is
reset only when `now` is strictly past `windowResetAt`. -/
def rateLimitSpecGt (rl : List (String × RateLimitEntry)) (clientIp : String)
    (now : Nat) : List (String × RateLimitEntry) × RateDecision :=
  match mapGet rl clientIp with
  | none =>
    (mapSet rl clientIp { count := 1, resetTime := now + RATE_LIMIT_WINDOW },
     .allowed)
  | some limit =>
    if now > limit.resetTime then
      (mapSet rl clientIp { count := 1, resetTime := now + RATE_LIMIT_WINDOW },
       .allowed)
    else
      let cnt := limit.count + 1
      if cnt > RATE_LIMIT_MAX then
        (mapSet rl clientIp { count := cnt, resetTime := limit.resetTime },
         .rejected (jsCeilDiv (limit.resetTime - now) 1000))
      else
        (mapSet rl clientIp { count := cnt, resetTime := limit.resetTime },
         .allowed)

/-! ## Response cache (`cacheMiddleware`) -/

/-- One entry of the `cache` map: `{ data, timestamp }`. -/
structure CacheEntry where
  data : Body
  timestamp : Nat
deriving DecidableEq

/-- `` const key = `${req.method}:${req.originalUrl}` `` — method plus the
original URL (path and raw query string, verbatim). -/
def cacheKey (method : String) (originalUrl : String) : String :=
  method ++ ":" ++ originalUrl

/-- The cache-hit test of `cacheMiddleware`:
`cached && Date.now() - cached.timestamp < CACHE_TTL`.  A stale entry makes
the lookup miss but is not deleted (the lookup reads the map only). -/
def cacheLookup (cache : List (String × CacheEntry)) (key : String) (now : Nat) :
    Option Body :=
  match mapGet cache key with
  | some entry => if now - entry.timestamp < CACHE_TTL then some entry.data else none
  | none => none

/-! ## Route handlers

Each handler is the body of the corresponding `app.get` callback, after the
middleware stages.  The upstream `fetch` is modelled by its observable
outcome, and each handler reports how many upstream calls it performed. -/

/-- Outcome of `fetch` on a JSON route: a decoded 2xx JSON payload, a non-2xx
status with its status text (body left undecoded), or a thrown transport
error (timeout, DNS, reset) caught by the handler's `catch`. -/
inductive UpstreamResult where
  | ok (data : String)
  | httpError (status : Nat) (statusText : String)
  | transportError (msg : String)
deriving DecidableEq

/-- JS truthiness of `req.query.url`: absent and empty string are falsy. -/
def strTruthy : Option String → Bool
  | none => false
  | some s => !(s = "")

/-- The upstream URL the freesound route builds:
`` `https://freesound.org/apiv2/${url}${queryString ? '&' + queryString : ''}` ``. -/
def freesoundUrl (url : String) (queryString : String) : String :=
  "https://freesound.org/apiv2/" ++ url ++
    (if queryString = "" then "" else "&" ++ queryString)

/-- The upstream URL the pexels route builds:
`` `https://api.pexels.com/videos/${url}` ``. -/
def pexelsUrl (url : String) : String :=
  "https://api.pexels.com/videos/" ++ url

/-- Handler of `GET /api/freesound`.  Returns the response it emits and the
number of upstream calls it makes. -/
def freesoundHandler (url? : Option String) (queryString : String)
    (keyConfigured : Bool) (upstream : UpstreamResult) : Response × Nat :=
  if !(strTruthy url?) then
    ({ status := 400, body := .obj [("error", .str "Missing url parameter")] }, 0)
  else if !keyConfigured then
    ({ status := 500,
       body := .obj [("error", .str "Freesound API key not configured")] }, 0)
  else
    let url := url?.getD ""
    match upstream with
    | .ok data => ({ status := 200, body := .payload data }, 1)
    | .httpError s t =>
      ({ status := s,
         body := .obj [("error", .str ("Freesound API error: " ++ toString s)),
                       ("details", .str t),
                       ("url", .str (freesoundUrl url queryString))] }, 1)
    | .transportError m =>
      ({ status := 500,
         body := .obj [("error", .str "Proxy error"), ("details", .str m)] }, 1)

/-- Handler of `GET /api/pexels`. -/
def pexelsHandler (url? : Option String) (keyConfigured : Bool)
    (upstream : UpstreamResult) : Response × Nat :=
  if !(strTruthy url?) then
    ({ status := 400, body := .obj [("error", .str "Missing url parameter")] }, 0)
  else if !keyConfigured then
    ({ status := 500,
       body := .obj [("error", .str "Pexels API key not configured")] }, 0)
  else
    let url := url?.getD ""
    match upstream with
    | .ok data => ({ status := 200, body := .payload data }, 1)
    | .httpError s t =>
      ({ status := s,
         body := .obj [("error", .str ("Pexels API error: " ++ toString s)),
                       ("details", .str t),
                       ("url", .str (pexelsUrl url))] }, 1)
    | .transportError m =>
      ({ status := 500,
         body := .obj [("error", .str "Proxy error"), ("details", .str m)] }, 1)

/-! ## Middleware pipeline of the JSON routes

`app.get(route, rateLimitMiddleware, cacheMiddleware, handler)`: the rate
limiter runs first and responds 429 itself on rejection (the cache stage
never runs).  On admission, a fresh cache entry short-circuits with the
stored body via the still-unwrapped `res.json` (status 200, nothing stored).
Otherwise `cacheMiddleware` replaces `res.json` with a wrapper that stores
`{data, timestamp: Date.now()}` under the key before emitting, and every
branch of both JSON handlers emits through `res.json` — so on a miss the
emitted body is always stored, whatever its status. -/

/-- Shared mutable server state: the two JS `Map`s. -/
structure ServerState where
  cache : List (String × CacheEntry)
  rateLimit : List (String × RateLimitEntry)
deriving DecidableEq

/-- The 429 body the rate limiter emits:
`{ error: 'Rate limit exceeded', retryAfter }`. -/
def rateLimitBody (retryAfter : Nat) : Body :=
  .obj [("error", .str "Rate limit exceeded"), ("retryAfter", .num retryAfter)]

/-- Result of one inbound request through a full route pipeline. -/
structure RouteResult where
  response : Response
  state : ServerState
  upstreamCalls : Nat
deriving DecidableEq

/-- One request through `rateLimitMiddleware` then `cacheMiddleware` then a
JSON handler (given by its emitted response and upstream-call count). -/
def runCachedRoute (st : ServerState) (clientIp : String) (now : Nat)
    (method originalUrl : String) (handlerResult : Response × Nat) : RouteResult :=
  let step := rateLimitMiddleware st.rateLimit clientIp now
  match step.2 with
  | .rejected retryAfter =>
    { response := { status := 429, body := rateLimitBody retryAfter },
      state := { st with rateLimit := step.1 },
      upstreamCalls := 0 }
  | .allowed =>
    let key := cacheKey method originalUrl
    match cacheLookup st.cache key now with
    | some data =>
      { response := { status := 200, body := data },
        state := { st with rateLimit := step.1 },
        upstreamCalls := 0 }
    | none =>
      { response := handlerResult.1,
        state := { cache := mapSet st.cache key
                     { data := handlerResult.1.body, timestamp := now },
                   rateLimit := step.1 },
        upstreamCalls := handlerResult.2 }

/-- `GET /api/freesound` end to end. -/
def runFreesoundRoute (st : ServerState) (clientIp : String) (now : Nat)
    (originalUrl : String) (url? : Option String) (queryString : String)
    (keyConfigured : Bool) (upstream : UpstreamResult) : RouteResult :=
  runCachedRoute st clientIp now "GET" originalUrl
    (freesoundHandler url? queryString keyConfigured upstream)

/-- `GET /api/pexels` end to end. -/
def runPexelsRoute (st : ServerState) (clientIp : String) (now : Nat)
    (originalUrl : String) (url? : Option String)
    (keyConfigured : Bool) (upstream : UpstreamResult) : RouteResult :=
  runCachedRoute st clientIp now "GET" originalUrl
    (pexelsHandler url? keyConfigured upstream)

/-! ## Streaming download routes

`app.get(route, rateLimitMiddleware, handler)` — no cache stage.  The
upstream `fetch` either streams (headers plus a byte sequence piped through
unchanged) or fails as on the JSON routes. -/

/-- The three headers the download handlers read from the upstream response
(`response.headers.get(...)`, `none` when the header is absent). -/
structure StreamHeaders where
  contentType : Option String
  contentLength : Option String
  contentDisposition : Option String
deriving DecidableEq

/-- Outcome of `fetch` on a download route. -/
inductive UpstreamStreamResult where
  | stream (headers : StreamHeaders) (bytes : List Nat)
  | httpError (status : Nat) (statusText : String)
  | transportError (msg : String)
deriving DecidableEq

/-- The headers set on the outbound response:
`Content-Type` always set, the other two only when their upstream value is
truthy. -/
structure OutHeaders where
  contentType : String
  contentLength : Option String
  contentDisposition : Option String
deriving DecidableEq

/-- JS `v || dflt` for nullable header strings: `null` and `""` take the
default. -/
def jsOrStr (v : Option String) (dflt : String) : String :=
  match v with
  | none => dflt
  | some s => if s = "" then dflt else s

/-- JS `if (v) res.setHeader(...)`: the header is forwarded exactly when its
upstream value is truthy. -/
def jsOptStr (v : Option String) : Option String :=
  match v with
  | none => none
  | some s => if s = "" then none else s

/-- What a download route sends back: a streamed body with its forwarded
headers, or a JSON error response. -/
inductive DlOutcome where
  | streamOut (headers : OutHeaders) (bytes : List Nat)
  | jsonOut (response : Response)
deriving DecidableEq

/-- Headers of a streamed outcome, if it is one. -/
def dlHeaders (o : DlOutcome) : Option OutHeaders :=
  match o with
  | .streamOut h _ => some h
  | .jsonOut _ => none

/-- Header forwarding of `GET /api/freesound/download/:id`:
`res.setHeader('Content-Type', contentType || 'audio/mpeg')`, then
`Content-Length` and `Content-Disposition` when truthy upstream. -/
def freesoundForwardHeaders (h : StreamHeaders) : OutHeaders :=
  { contentType := jsOrStr h.contentType "audio/mpeg",
    contentLength := jsOptStr h.contentLength,
    contentDisposition := jsOptStr h.contentDisposition }

/-- Header forwarding of `GET /api/pexels/download` (default `video/mp4`). -/
def pexelsForwardHeaders (h : StreamHeaders) : OutHeaders :=
  { contentType := jsOrStr h.contentType "video/mp4",
    contentLength := jsOptStr h.contentLength,
    contentDisposition := jsOptStr h.contentDisposition }

/-- Handler of `GET /api/freesound/download/:id` (the path parameter `id` is
always present).  Returns the outcome and the upstream-call count. -/
def freesoundDownloadHandler (keyConfigured : Bool) (id : String)
    (upstream : UpstreamStreamResult) : DlOutcome × Nat :=
  if !keyConfigured then
    (.jsonOut { status := 500,
                body := .obj [("error", .str "Freesound API key not configured")] },
     0)
  else
    match upstream with
    | .stream h bytes => (.streamOut (freesoundForwardHeaders h) bytes, 1)
    | .httpError s t =>
      (.jsonOut { status := s,
                  body := .obj [("error", .str ("Download error: " ++ toString s)),
                                ("details", .str t),
                                ("soundId", .str id)] }, 1)
    | .transportError m =>
      (.jsonOut { status := 500,
                  body := .obj [("error", .str "Download proxy error"),
                                ("details", .str m),
                                ("soundId", .str id)] }, 1)

/-- Handler of `GET /api/pexels/download` — validates `url` only, no API-key
check (the target URL is fetched verbatim, without credentials). -/
def pexelsDownloadHandler (url? : Option String)
    (upstream : UpstreamStreamResult) : DlOutcome × Nat :=
  if !(strTruthy url?) then
    (.jsonOut { status := 400,
                body := .obj [("error", .str "Missing url parameter")] }, 0)
  else
    let url := url?.getD ""
    match upstream with
    | .stream h bytes => (.streamOut (pexelsForwardHeaders h) bytes, 1)
    | .httpError s t =>
      (.jsonOut { status := s,
                  body := .obj [("error", .str ("Download error: " ++ toString s)),
                                ("details", .str t),
                                ("url", .str url)] }, 1)
    | .transportError m =>
      (.jsonOut { status := 500,
                  body := .obj [("error", .str "Download proxy error"),
                                ("details", .str m),
                                ("url", .str url)] }, 1)

/-- Result of one request through a download route: the rate limiter runs,
then the handler; the cache is never touched (no `cacheMiddleware` on these
routes). -/
structure DlRouteResult where
  outcome : DlOutcome
  state : ServerState
  upstreamCalls : Nat
deriving DecidableEq

/-- `GET /api/freesound/download/:id` end to end. -/
def runFreesoundDownloadRoute (st : ServerState) (clientIp : String) (now : Nat)
    (keyConfigured : Bool) (id : String) (upstream : UpstreamStreamResult) :
    DlRouteResult :=
  let step := rateLimitMiddleware st.rateLimit clientIp now
  match step.2 with
  | .rejected retryAfter =>
    { outcome := .jsonOut { status := 429, body := rateLimitBody retryAfter },
      state := { st with rateLimit := step.1 },
      upstreamCalls := 0 }
  | .allowed =>
    let r := freesoundDownloadHandler keyConfigured id upstream
    { outcome := r.1, state := { st with rateLimit := step.1 },
      upstreamCalls := r.2 }

/-- `GET /api/pexels/download` end to end. -/
def runPexelsDownloadRoute (st : ServerState) (clientIp : String) (now : Nat)
    (url? : Option String) (upstream : UpstreamStreamResult) : DlRouteResult :=
  let step := rateLimitMiddleware st.rateLimit clientIp now
  match step.2 with
  | .rejected retryAfter =>
    { outcome := .jsonOut { status := 429, body := rateLimitBody retryAfter },
      state := { st with rateLimit := step.1 },
      upstreamCalls := 0 }
  | .allowed =>
    let r := pexelsDownloadHandler url? upstream
    { outcome := r.1, state := { st with rateLimit := step.1 },
      upstreamCalls := r.2 }

/-! ## Cache management routes (no middleware stages) -/

/-- `cache.size` as reported by `GET /api/cache/status` (the assoc list keeps
keys unique, so its length is the `Map` size). -/
def cacheStatusSize (cache : List (String × CacheEntry)) : Nat := cache.length

/-- The key listing of `GET /api/cache/status`: `Array.from(cache.keys())`. -/
def cacheStatusKeys (cache : List (String × CacheEntry)) : List String :=
  cache.map (fun e => e.1)

/-- `DELETE /api/cache/clear`: records `clearedCount = cache.size`, empties
the map, and responds with the count embedded in the message.  Returns
(count, response body, new cache). -/
def clearCacheRoute (cache : List (String × CacheEntry)) :
    Nat × Body × List (String × CacheEntry) :=
  let clearedCount := cache.length
  (clearedCount,
   .obj [("message",
          .str ("Cache cleared: " ++ toString clearedCount ++ " entries"))],
   [])

/-! ## Helper lemmas -/

theorem str_append_empty (s : String) : s ++ "" = s := by
  apply String.ext
  simp [String.data_append]

theorem runCachedRoute_rejected (st : ServerState) (c : String) (now : Nat)
    (m u : String) (hr : Response × Nat) (r : Nat)
    (h : (rateLimitMiddleware st.rateLimit c now).2 = .rejected r) :
    runCachedRoute st c now m u hr =
      { response := { status := 429, body := rateLimitBody r },
        state := { st with rateLimit := (rateLimitMiddleware st.rateLimit c now).1 },
        upstreamCalls := 0 } := by
  simp only [runCachedRoute, h]

theorem runCachedRoute_hit (st : ServerState) (c : String) (now : Nat)
    (m u : String) (hr : Response × Nat) (b : Body)
    (h : (rateLimitMiddleware st.rateLimit c now).2 = .allowed)
    (hc : cacheLookup st.cache (cacheKey m u) now = some b) :
    runCachedRoute st c now m u hr =
      { response := { status := 200, body := b },
        state := { st with rateLimit := (rateLimitMiddleware st.rateLimit c now).1 },
        upstreamCalls := 0 } := by
  simp only [runCachedRoute, h, hc]

theorem runCachedRoute_miss (st : ServerState) (c : String) (now : Nat)
    (m u : String) (hr : Response × Nat)
    (h : (rateLimitMiddleware st.rateLimit c now).2 = .allowed)
    (hc : cacheLookup st.cache (cacheKey m u) now = none) :
    runCachedRoute st c now m u hr =
      { response := hr.1,
        state := { cache := mapSet st.cache (cacheKey m u)
                     { data := hr.1.body, timestamp := now },
                   rateLimit := (rateLimitMiddleware st.rateLimit c now).1 },
        upstreamCalls := hr.2 } := by
  simp only [runCachedRoute, h, hc]

/-! ## Claim theorems -/

/-- Claim C2, counterexample.  At the window boundary `now = windowResetAt`
the claim mandates a reset (count back to 1, request Allowed), but the code
resets only on the strict inequality `now > limit.resetTime`: a client at
count 100 whose window expires exactly now is incremented to 101 and
Rejected with `retryAfter = 0`. -/
theorem rateLimitBoundary_counterexample :
    (rateLimitMiddleware [("client", ⟨100, 60000⟩)] "client" 60000).2 =
      .rejected 0 ∧
    (rateLimitSpecGe [("client", ⟨100, 60000⟩)] "client" 60000).2 = .allowed ∧
    rateLimitMiddleware [("client", ⟨100, 60000⟩)] "client" 60000 ≠
      rateLimitSpecGe [("client", ⟨100, 60000⟩)] "client" 60000 := by
  decide

/-- Claim C2, amended: a first request creates `{count 1, resetTime now+W}`
and is Allowed; a subsequent request resets exactly when `now` is strictly
greater than `windowResetAt` (not `>=`); otherwise the count is incremented
and the request is Rejected with `retryAfter = ceil((windowResetAt-now)/1000)`
precisely when the new count exceeds `M = 100`, else Allowed.  The embedded
middleware equals this contract on every state, client, and time. -/
theorem rateLimitMiddleware_eq_strictSpec
    (rl : List (String × RateLimitEntry)) (c : String) (now : Nat) :
    rateLimitMiddleware rl c now = rateLimitSpecGt rl c now := by
  unfold rateLimitMiddleware rateLimitSpecGt
  cases hg : mapGet rl c with
  | none => rfl
  | some limit =>
    obtain ⟨cnt, rt⟩ := limit
    by_cases h : now > rt
    · simp [h, RATE_LIMIT_MAX]
    · simp [h]

/-- Claim C3: a lookup returns the stored body exactly when an entry exists
and `now - storedAt < CACHE_TTL`; and the expiry check never removes an
entry — after any request through a cached route, every key other than the
request's own is bound exactly as before (entries leave the store only via
an overwriting `put` on their own key or an explicit clear). -/
theorem cacheTTL_characterization :
    (∀ (cache : List (String × CacheEntry)) (k : String) (now : Nat) (b : Body),
      cacheLookup cache k now = some b ↔
        ∃ e, mapGet cache k = some e ∧ e.data = b ∧
          now - e.timestamp < CACHE_TTL) ∧
    (∀ (st : ServerState) (c : String) (now : Nat) (m u : String)
        (hr : Response × Nat) (k' : String), k' ≠ cacheKey m u →
      mapGet (runCachedRoute st c now m u hr).state.cache k' =
        mapGet st.cache k') := by
  constructor
  · intro cache k now b
    unfold cacheLookup
    cases hg : mapGet cache k with
    | none => simp
    | some e =>
      by_cases ht : now - e.timestamp < CACHE_TTL
      · simp [ht, eq_comm]
      · simp [ht]
  · intro st c now m u hr k' hk
    cases hstep : (rateLimitMiddleware st.rateLimit c now).2 with
    | rejected r => rw [runCachedRoute_rejected st c now m u hr r hstep]
    | allowed =>
      cases hc : cacheLookup st.cache (cacheKey m u) now with
      | some b => rw [runCachedRoute_hit st c now m u hr b hstep hc]
      | none =>
        rw [runCachedRoute_miss st c now m u hr hstep hc]
        exact mapGet_mapSet_ne st.cache (cacheKey m u) k' _ hk

/-- Claim C3, witness: a 5-minutes-minus-1ms-old entry is a hit, and an
entry under a different key survives a cached-route request untouched. -/
theorem cacheTTL_characterization_witness :
    cacheLookup [("GET:/a?x=1", ⟨.payload "body", 0⟩)] "GET:/a?x=1" 299999 =
      some (.payload "body") ∧
    mapGet (runCachedRoute ⟨[("GET:/other", ⟨.payload "old", 0⟩)], []⟩ "c" 0
        "GET" "/a" ({ status := 200, body := .payload "new" }, 1)).state.cache
        "GET:/other" = some ⟨.payload "old", 0⟩ := by
  constructor
  · exact (cacheTTL_characterization.1 _ "GET:/a?x=1" 299999 _).mpr
      ⟨⟨.payload "body", 0⟩, rfl, rfl, by decide⟩
  · rw [cacheTTL_characterization.2 ⟨[("GET:/other", ⟨.payload "old", 0⟩)], []⟩
      "c" 0 "GET" "/a" ({ status := 200, body := .payload "new" }, 1)
      "GET:/other" (by decide)]
    rfl

/-- Claim C4: the cache key is the deterministic string
`method ++ ":" ++ originalUrl` with the query taken verbatim, so for a fixed
method two original URLs collide exactly when they are character-identical —
query-parameter reorderings give distinct entries, identical requests give
the same entry. -/
theorem cacheKey_injective (m u₁ u₂ : String) :
    cacheKey m u₁ = cacheKey m u₂ ↔ u₁ = u₂ := by
  constructor
  · intro h
    unfold cacheKey at h
    have hd := congrArg String.data h
    simp [String.data_append] at hd
    exact String.ext hd
  · intro h
    rw [h]

/-- Claim C4, witness: the same query parameters in a different order yield
a distinct cache key; a character-identical request yields the same key. -/
theorem cacheKey_injective_witness :
    cacheKey "GET" "/api/freesound?a=1&b=2" ≠
      cacheKey "GET" "/api/freesound?b=2&a=1" ∧
    cacheKey "GET" "/api/freesound?a=1&b=2" =
      cacheKey "GET" "/api/freesound?a=1&b=2" := by
  refine ⟨fun h => ?_, rfl⟩
  have := (cacheKey_injective "GET" "/api/freesound?a=1&b=2"
    "/api/freesound?b=2&a=1").mp h
  exact absurd this (by decide)

/-- Claim C1, code evaluation at the failing input.  The claim (and the
spec) say error responses are never cached, but `cacheMiddleware` wraps
`res.json` before the handler runs and stores every body emitted through it,
whatever the status: a `GET /api/freesound` with no `url` parameter responds
400, yet its error body lands in the cache under `GET:/api/freesound`, and
the identical request one second later is served that error body as a
cache hit — with status 200. -/
theorem errorResponseCached_bug :
    (runFreesoundRoute ⟨[], []⟩ "client" 0 "/api/freesound" none "" true
        (.ok "unused")).response.status = 400 ∧
    mapGet (runFreesoundRoute ⟨[], []⟩ "client" 0 "/api/freesound" none "" true
        (.ok "unused")).state.cache "GET:/api/freesound" =
      some ⟨.obj [("error", .str "Missing url parameter")], 0⟩ ∧
    (runFreesoundRoute
        (runFreesoundRoute ⟨[], []⟩ "client" 0 "/api/freesound" none "" true
          (.ok "unused")).state
        "client" 1000 "/api/freesound" none "" true (.ok "unused")).response =
      { status := 200, body := .obj [("error", .str "Missing url parameter")] } := by
  decide

/-- Claim C5: a search request with no `url` parameter performs zero
upstream calls on any state, and — whenever it reaches the handler (rate
limiter admits, no fresh cache entry) — responds 400 `Missing url
parameter`; likewise a request with `url` present but the provider key
unconfigured performs zero upstream calls and responds 500.  Both
providers. -/
theorem validationShortCircuit :
    (∀ (st : ServerState) (c : String) (now : Nat) (ourl qs : String)
        (kc : Bool) (up : UpstreamResult),
      (runFreesoundRoute st c now ourl none qs kc up).upstreamCalls = 0 ∧
      ((rateLimitMiddleware st.rateLimit c now).2 = .allowed →
        cacheLookup st.cache (cacheKey "GET" ourl) now = none →
        (runFreesoundRoute st c now ourl none qs kc up).response =
          { status := 400, body := .obj [("error", .str "Missing url parameter")] })) ∧
    (∀ (st : ServerState) (c : String) (now : Nat) (ourl : String)
        (kc : Bool) (up : UpstreamResult),
      (runPexelsRoute st c now ourl none kc up).upstreamCalls = 0 ∧
      ((rateLimitMiddleware st.rateLimit c now).2 = .allowed →
        cacheLookup st.cache (cacheKey "GET" ourl) now = none →
        (runPexelsRoute st c now ourl none kc up).response =
          { status := 400, body := .obj [("error", .str "Missing url parameter")] })) ∧
    (∀ (st : ServerState) (c : String) (now : Nat) (ourl qs uv : String)
        (up : UpstreamResult), uv ≠ "" →
      (runFreesoundRoute st c now ourl (some uv) qs false up).upstreamCalls = 0 ∧
      ((rateLimitMiddleware st.rateLimit c now).2 = .allowed →
        cacheLookup st.cache (cacheKey "GET" ourl) now = none →
        (runFreesoundRoute st c now ourl (some uv) qs false up).response =
          { status := 500,
            body := .obj [("error", .str "Freesound API key not configured")] })) ∧
    (∀ (st : ServerState) (c : String) (now : Nat) (ourl uv : String)
        (up : UpstreamResult), uv ≠ "" →
      (runPexelsRoute st c now ourl (some uv) false up).upstreamCalls = 0 ∧
      ((rateLimitMiddleware st.rateLimit c now).2 = .allowed →
        cacheLookup st.cache (cacheKey "GET" ourl) now = none →
        (runPexelsRoute st c now ourl (some uv) false up).response =
          { status := 500,
            body := .obj [("error", .str "Pexels API key not configured")] })) := by
  refine ⟨?_, ?_, ?_, ?_⟩
  · intro st c now ourl qs kc up
    unfold runFreesoundRoute
    cases hstep : (rateLimitMiddleware st.rateLimit c now).2 with
    | rejected r =>
      rw [runCachedRoute_rejected st c now "GET" ourl _ r hstep]
      exact ⟨rfl, fun ha => RateDecision.noConfusion ha⟩
    | allowed =>
      cases hc : cacheLookup st.cache (cacheKey "GET" ourl) now with
      | some b =>
        rw [runCachedRoute_hit st c now "GET" ourl _ b hstep hc]
        exact ⟨rfl, fun _ hc' => Option.noConfusion hc'⟩
      | none =>
        rw [runCachedRoute_miss st c now "GET" ourl _ hstep hc]
        exact ⟨rfl, fun _ _ => rfl⟩
  · intro st c now ourl kc up
    unfold runPexelsRoute
    cases hstep : (rateLimitMiddleware st.rateLimit c now).2 with
    | rejected r =>
      rw [runCachedRoute_rejected st c now "GET" ourl _ r hstep]
      exact ⟨rfl, fun ha => RateDecision.noConfusion ha⟩
    | allowed =>
      cases hc : cacheLookup st.cache (cacheKey "GET" ourl) now with
      | some b =>
        rw [runCachedRoute_hit st c now "GET" ourl _ b hstep hc]
        exact ⟨rfl, fun _ hc' => Option.noConfusion hc'⟩
      | none =>
        rw [runCachedRoute_miss st c now "GET" ourl _ hstep hc]
        exact ⟨rfl, fun _ _ => rfl⟩
  · intro st c now ourl qs uv up huv
    unfold runFreesoundRoute
    have hh : freesoundHandler (some uv) qs false up =
        ({ status := 500,
           body := .obj [("error", .str "Freesound API key not configured")] }, 0) := by
      simp [freesoundHandler, strTruthy, huv]
    cases hstep : (rateLimitMiddleware st.rateLimit c now).2 with
    | rejected r =>
      rw [runCachedRoute_rejected st c now "GET" ourl _ r hstep]
      exact ⟨rfl, fun ha => RateDecision.noConfusion ha⟩
    | allowed =>
      cases hc : cacheLookup st.cache (cacheKey "GET" ourl) now with
      | some b =>
        rw [runCachedRoute_hit st c now "GET" ourl _ b hstep hc]
        exact ⟨rfl, fun _ hc' => Option.noConfusion hc'⟩
      | none =>
        rw [runCachedRoute_miss st c now "GET" ourl _ hstep hc]
        rw [hh]
        exact ⟨rfl, fun _ _ => rfl⟩
  · intro st c now ourl uv up huv
    unfold runPexelsRoute
    have hh : pexelsHandler (some uv) false up =
        ({ status := 500,
           body := .obj [("error", .str "Pexels API key not configured")] }, 0) := by
      simp [pexelsHandler, strTruthy, huv]
    cases hstep : (rateLimitMiddleware st.rateLimit c now).2 with
    | rejected r =>
      rw [runCachedRoute_rejected st c now "GET" ourl _ r hstep]
      exact ⟨rfl, fun ha => RateDecision.noConfusion ha⟩
    | allowed =>
      cases hc : cacheLookup st.cache (cacheKey "GET" ourl) now with
      | some b =>
        rw [runCachedRoute_hit st c now "GET" ourl _ b hstep hc]
        exact ⟨rfl, fun _ hc' => Option.noConfusion hc'⟩
      | none =>
        rw [runCachedRoute_miss st c now "GET" ourl _ hstep hc]
        rw [hh]
        exact ⟨rfl, fun _ _ => rfl⟩

/-- Claim C5, witness: on the empty state (admitted, cache miss) a
missing-`url` freesound request responds 400 with zero upstream calls, and a
keyless pexels request with `url` present responds 500 with zero upstream
calls. -/
theorem validationShortCircuit_witness :
    (runFreesoundRoute ⟨[], []⟩ "c" 0 "/api/freesound" none "" true
        (.ok "u")).upstreamCalls = 0 ∧
    (runFreesoundRoute ⟨[], []⟩ "c" 0 "/api/freesound" none "" true
        (.ok "u")).response =
      { status := 400, body := .obj [("error", .str "Missing url parameter")] } ∧
    (runPexelsRoute ⟨[], []⟩ "c" 0 "/api/pexels?url=search" (some "search") false
        (.ok "u")).response =
      { status := 500,
        body := .obj [("error", .str "Pexels API key not configured")] } := by
  obtain ⟨h1, h2⟩ := validationShortCircuit.1 ⟨[], []⟩ "c" 0 "/api/freesound" "" true (.ok "u")
  obtain ⟨-, h3⟩ := validationShortCircuit.2.2.2 ⟨[], []⟩ "c" 0
    "/api/pexels?url=search" "search" (.ok "u") (by decide)
  exact ⟨h1, h2 (by decide) (by decide), h3 (by decide) (by decide)⟩

/-- Claim C6, counterexample.  The rate limiter runs before validation, so a
request that fails validation still mutates the client's counter: with a
counter at 5, a missing-`url` request leaves it at 6, not 5. -/
theorem validationQuota_counterexample :
    (runFreesoundRoute ⟨[], [("client", ⟨5, 100000⟩)]⟩ "client" 0
        "/api/freesound" none "" true (.ok "u")).state.rateLimit =
      [("client", ⟨6, 100000⟩)] ∧
    [("client", (⟨6, 100000⟩ : RateLimitEntry))] ≠
      [("client", (⟨5, 100000⟩ : RateLimitEntry))] := by
  decide

/-- Claim C6, amended: a validation-failing request consumes rate-limit
quota exactly like any other request — the counter map afterwards is
precisely what one `rateLimitMiddleware` step produces — while still making
zero upstream calls.  Both providers. -/
theorem validationConsumesRateQuota (st : ServerState) (c : String) (now : Nat)
    (ourl qs : String) (kc : Bool) (up : UpstreamResult) :
    (runFreesoundRoute st c now ourl none qs kc up).state.rateLimit =
      (rateLimitMiddleware st.rateLimit c now).1 ∧
    (runFreesoundRoute st c now ourl none qs kc up).upstreamCalls = 0 ∧
    (runPexelsRoute st c now ourl none kc up).state.rateLimit =
      (rateLimitMiddleware st.rateLimit c now).1 ∧
    (runPexelsRoute st c now ourl none kc up).upstreamCalls = 0 := by
  unfold runFreesoundRoute runPexelsRoute
  cases hstep : (rateLimitMiddleware st.rateLimit c now).2 with
  | rejected r =>
    rw [runCachedRoute_rejected st c now "GET" ourl _ r hstep,
        runCachedRoute_rejected st c now "GET" ourl _ r hstep]
    exact ⟨rfl, rfl, rfl, rfl⟩
  | allowed =>
    cases hc : cacheLookup st.cache (cacheKey "GET" ourl) now with
    | some b =>
      rw [runCachedRoute_hit st c now "GET" ourl _ b hstep hc,
          runCachedRoute_hit st c now "GET" ourl _ b hstep hc]
      exact ⟨rfl, rfl, rfl, rfl⟩
    | none =>
      rw [runCachedRoute_miss st c now "GET" ourl _ hstep hc,
          runCachedRoute_miss st c now "GET" ourl _ hstep hc]
      exact ⟨rfl, rfl, rfl, rfl⟩

/-- A response mirrors a non-2xx upstream outcome: same status code, the
upstream status text verbatim in the `details` field, and the status code
rendered inside the `error` field. -/
def mirrorsUpstream (r : Response) (s : Nat) (t : String) : Prop :=
  r.status = s ∧ bodyField r.body "details" = some (.str t) ∧
  ∃ e pre post, bodyField r.body "error" = some (.str e) ∧
    e = pre ++ toString s ++ post

/-- Claim C7: every non-2xx upstream response is mirrored — the proxy
responds with exactly the upstream status code, carries the upstream status
text verbatim in `details`, and renders the status code inside the `error`
field, on both search routes and both download routes (the upstream body is
never decoded: the handlers build the reply from status and status text
alone). -/
theorem upstreamStatusMirrored (s : Nat) (t : String) (u qs sid : String)
    (hu : u ≠ "") :
    mirrorsUpstream (freesoundHandler (some u) qs true (.httpError s t)).1 s t ∧
    mirrorsUpstream (pexelsHandler (some u) true (.httpError s t)).1 s t ∧
    (∃ r, (freesoundDownloadHandler true sid (.httpError s t)).1 = .jsonOut r ∧
      mirrorsUpstream r s t) ∧
    (∃ r, (pexelsDownloadHandler (some u) (.httpError s t)).1 = .jsonOut r ∧
      mirrorsUpstream r s t) := by
  have hsf : (freesoundHandler (some u) qs true (.httpError s t)).1 =
      { status := s,
        body := .obj [("error", .str ("Freesound API error: " ++ toString s)),
                      ("details", .str t),
                      ("url", .str (freesoundUrl u qs))] } := by
    simp [freesoundHandler, strTruthy, hu]
  have hsp : (pexelsHandler (some u) true (.httpError s t)).1 =
      { status := s,
        body := .obj [("error", .str ("Pexels API error: " ++ toString s)),
                      ("details", .str t),
                      ("url", .str (pexelsUrl u))] } := by
    simp [pexelsHandler, strTruthy, hu]
  have hdp : (pexelsDownloadHandler (some u) (.httpError s t)).1 =
      .jsonOut { status := s,
                 body := .obj [("error", .str ("Download error: " ++ toString s)),
                               ("details", .str t),
                               ("url", .str u)] } := by
    simp [pexelsDownloadHandler, strTruthy, hu]
  refine ⟨?_, ?_, ?_, ?_⟩
  · rw [hsf]
    exact ⟨rfl, by simp [bodyField, mapGet],
      "Freesound API error: " ++ toString s, "Freesound API error: ", "",
      by simp [bodyField, mapGet], (str_append_empty _).symm⟩
  · rw [hsp]
    exact ⟨rfl, by simp [bodyField, mapGet],
      "Pexels API error: " ++ toString s, "Pexels API error: ", "",
      by simp [bodyField, mapGet], (str_append_empty _).symm⟩
  · refine ⟨_, rfl, rfl, by simp [bodyField, mapGet], ?_⟩
    exact ⟨"Download error: " ++ toString s, "Download error: ", "",
      by simp [bodyField, mapGet], (str_append_empty _).symm⟩
  · refine ⟨_, hdp, rfl, by simp [bodyField, mapGet], ?_⟩
    exact ⟨"Download error: " ++ toString s, "Download error: ", "",
      by simp [bodyField, mapGet], (str_append_empty _).symm⟩

/-- Claim C7, witness: upstream 404 yields proxy 404 with "404" inside the
`error` field, and upstream 503 on the pexels route yields proxy 503. -/
theorem upstreamStatusMirrored_witness :
    mirrorsUpstream (freesoundHandler (some "search/text/") "" true
      (.httpError 404 "Not Found")).1 404 "Not Found" ∧
    mirrorsUpstream (pexelsHandler (some "search") true
      (.httpError 503 "Service Unavailable")).1 503 "Service Unavailable" := by
  exact ⟨(upstreamStatusMirrored 404 "Not Found" "search/text/" "" "1"
            (by decide)).1,
         (upstreamStatusMirrored 503 "Service Unavailable" "search" "" "1"
            (by decide)).2.1⟩

/-- Content-Type of a streamed outcome, if the outcome streams. -/
def dlContentType (o : DlOutcome) : Option String :=
  (dlHeaders o).map (fun h => h.contentType)

/-- Content-Length header of a streamed outcome, if the outcome streams. -/
def dlContentLength (o : DlOutcome) : Option (Option String) :=
  (dlHeaders o).map (fun h => h.contentLength)

/-- Content-Disposition header of a streamed outcome, if it streams. -/
def dlContentDisposition (o : DlOutcome) : Option (Option String) :=
  (dlHeaders o).map (fun h => h.contentDisposition)

/-- Streamed bytes of a download outcome, if the outcome streams. -/
def dlBytes (o : DlOutcome) : Option (List Nat) :=
  match o with
  | .streamOut _ b => some b
  | .jsonOut _ => none

/-- Claim C8, counterexample.  When the upstream response carries no
`content-type` header, the download handlers do not forward it verbatim:
they substitute the hard-coded defaults `audio/mpeg` (freesound) and
`video/mp4` (pexels), so the outbound Content-Type is not the upstream value
for every upstream response. -/
theorem contentTypeFallback_counterexample :
    dlContentType (freesoundDownloadHandler true "42"
        (.stream ⟨none, none, none⟩ [7])).1 = some "audio/mpeg" ∧
    dlContentType (pexelsDownloadHandler (some "http://x")
        (.stream ⟨none, none, none⟩ [7])).1 = some "video/mp4" ∧
    (⟨none, none, none⟩ : StreamHeaders).contentType = none := by
  decide

/-- Claim C8, amended: on a successful streamed download the body is
forwarded byte-identical, Content-Length and Content-Disposition are
forwarded verbatim exactly when present (and non-empty) upstream and omitted
when absent, and Content-Type is forwarded verbatim when present (and
non-empty) upstream — falling back to `audio/mpeg` (freesound) or
`video/mp4` (pexels) when the upstream omits it. -/
theorem downloadHeaderForwarding (sid u : String) (hu : u ≠ "")
    (h : StreamHeaders) (bytes : List Nat) :
    (∀ ct, h.contentType = some ct → ct ≠ "" →
      dlContentType (freesoundDownloadHandler true sid (.stream h bytes)).1 =
        some ct ∧
      dlContentType (pexelsDownloadHandler (some u) (.stream h bytes)).1 =
        some ct) ∧
    (∀ cl, h.contentLength = some cl → cl ≠ "" →
      dlContentLength (freesoundDownloadHandler true sid (.stream h bytes)).1 =
        some (some cl) ∧
      dlContentLength (pexelsDownloadHandler (some u) (.stream h bytes)).1 =
        some (some cl)) ∧
    (h.contentLength = none →
      dlContentLength (freesoundDownloadHandler true sid (.stream h bytes)).1 =
        some none ∧
      dlContentLength (pexelsDownloadHandler (some u) (.stream h bytes)).1 =
        some none) ∧
    (∀ cd, h.contentDisposition = some cd → cd ≠ "" →
      dlContentDisposition
        (freesoundDownloadHandler true sid (.stream h bytes)).1 =
          some (some cd) ∧
      dlContentDisposition (pexelsDownloadHandler (some u) (.stream h bytes)).1 =
        some (some cd)) ∧
    (h.contentDisposition = none →
      dlContentDisposition
        (freesoundDownloadHandler true sid (.stream h bytes)).1 = some none ∧
      dlContentDisposition (pexelsDownloadHandler (some u) (.stream h bytes)).1 =
        some none) ∧
    (h.contentType = none →
      dlContentType (freesoundDownloadHandler true sid (.stream h bytes)).1 =
        some "audio/mpeg" ∧
      dlContentType (pexelsDownloadHandler (some u) (.stream h bytes)).1 =
        some "video/mp4") ∧
    dlBytes (freesoundDownloadHandler true sid (.stream h bytes)).1 =
      some bytes ∧
    dlBytes (pexelsDownloadHandler (some u) (.stream h bytes)).1 = some bytes := by
  have hf : (freesoundDownloadHandler true sid (.stream h bytes)).1 =
      .streamOut (freesoundForwardHeaders h) bytes := rfl
  have hp : (pexelsDownloadHandler (some u) (.stream h bytes)).1 =
      .streamOut (pexelsForwardHeaders h) bytes := by
    simp [pexelsDownloadHandler, strTruthy, hu]
  refine ⟨?_, ?_, ?_, ?_, ?_, ?_, ?_, ?_⟩
  · intro ct hct hct'
    rw [hf, hp]
    simp [dlContentType, dlHeaders, freesoundForwardHeaders,
          pexelsForwardHeaders, jsOrStr, hct, hct']
  · intro cl hcl hcl'
    rw [hf, hp]
    simp [dlContentLength, dlHeaders, freesoundForwardHeaders,
          pexelsForwardHeaders, jsOptStr, hcl, hcl']
  · intro hcl
    rw [hf, hp]
    simp [dlContentLength, dlHeaders, freesoundForwardHeaders,
          pexelsForwardHeaders, jsOptStr, hcl]
  · intro cd hcd hcd'
    rw [hf, hp]
    simp [dlContentDisposition, dlHeaders, freesoundForwardHeaders,
          pexelsForwardHeaders, jsOptStr, hcd, hcd']
  · intro hcd
    rw [hf, hp]
    simp [dlContentDisposition, dlHeaders, freesoundForwardHeaders,
          pexelsForwardHeaders, jsOptStr, hcd]
  · intro hct
    rw [hf, hp]
    simp [dlContentType, dlHeaders, freesoundForwardHeaders,
          pexelsForwardHeaders, jsOrStr, hct]
  · rw [hf]; rfl
  · rw [hp]; rfl

/-- Claim C8, witness: a concrete upstream stream with all three headers
present is forwarded with those exact headers and bytes, on both routes. -/
theorem downloadHeaderForwarding_witness :
    dlContentType (freesoundDownloadHandler true "9"
        (.stream ⟨some "audio/wav", some "123", some "att"⟩ [1, 2])).1 =
      some "audio/wav" ∧
    dlContentLength (freesoundDownloadHandler true "9"
        (.stream ⟨some "audio/wav", some "123", some "att"⟩ [1, 2])).1 =
      some (some "123") ∧
    dlBytes (pexelsDownloadHandler (some "http://x")
        (.stream ⟨some "audio/wav", some "123", some "att"⟩ [1, 2])).1 =
      some [1, 2] := by
  obtain ⟨hct, hcl, -, -, -, -, -, hb⟩ := downloadHeaderForwarding "9" "http://x"
    (by decide) ⟨some "audio/wav", some "123", some "att"⟩ [1, 2]
  exact ⟨(hct "audio/wav" rfl (by decide)).1, (hcl "123" rfl (by decide)).1, hb⟩

/-- Claim C9: clearing the cache returns (and reports in its message) the
number of stored entries; afterwards the status route reports size 0 with no
keys, every lookup misses, and an admitted request for any previously cached
key falls through to its handler, performing that handler's upstream
calls. -/
theorem cacheClearResets (cache : List (String × CacheEntry)) :
    (clearCacheRoute cache).1 = cacheStatusSize cache ∧
    (clearCacheRoute cache).2.1 =
      .obj [("message",
        .str ("Cache cleared: " ++ toString (cacheStatusSize cache) ++
          " entries"))] ∧
    cacheStatusSize (clearCacheRoute cache).2.2 = 0 ∧
    cacheStatusKeys (clearCacheRoute cache).2.2 = [] ∧
    (∀ (k : String) (now : Nat),
      cacheLookup (clearCacheRoute cache).2.2 k now = none) ∧
    (∀ (rl : List (String × RateLimitEntry)) (c : String) (now : Nat)
        (m u : String) (hr : Response × Nat),
      (rateLimitMiddleware rl c now).2 = .allowed →
      (runCachedRoute ⟨(clearCacheRoute cache).2.2, rl⟩ c now m u
          hr).upstreamCalls = hr.2) := by
  refine ⟨rfl, rfl, rfl, rfl, fun k now => rfl,
    fun rl c now m u hr hall => ?_⟩
  rw [runCachedRoute_miss ⟨(clearCacheRoute cache).2.2, rl⟩ c now m u hr hall rfl]

/-- Claim C9, witness: clearing a one-entry cache returns 1, the cleared
cache has size 0, and re-requesting the formerly cached key (admitted, on
the cleared cache) reaches the handler and performs its one upstream call. -/
theorem cacheClearResets_witness :
    (clearCacheRoute [("GET:/api/freesound?url=q", ⟨.payload "v", 0⟩)]).1 = 1 ∧
    cacheStatusSize
      (clearCacheRoute [("GET:/api/freesound?url=q", ⟨.payload "v", 0⟩)]).2.2 =
        0 ∧
    (runCachedRoute
        ⟨(clearCacheRoute
            [("GET:/api/freesound?url=q", ⟨.payload "v", 0⟩)]).2.2, []⟩
        "c" 0 "GET" "/api/freesound?url=q"
        ({ status := 200, body := .payload "w" }, 1)).upstreamCalls = 1 := by
  obtain ⟨h1, -, h3, -, -, h6⟩ :=
    cacheClearResets [("GET:/api/freesound?url=q", ⟨.payload "v", 0⟩)]
  exact ⟨h1.trans rfl, h3,
    h6 [] "c" 0 "GET" "/api/freesound?url=q"
      ({ status := 200, body := .payload "w" }, 1) (by decide)⟩

/-- Claim C10: a request the rate limiter rejects is answered 429 before the
cache stage runs, so the cache is left exactly as it was — the 429 body is
never stored, no upstream call happens, and every later lookup behaves as if
the rejected request had not touched the cache. -/
theorem rateLimitRejectionNotCached (st : ServerState) (c : String) (now : Nat)
    (m u : String) (hr : Response × Nat) (r : Nat)
    (hrej : (rateLimitMiddleware st.rateLimit c now).2 = .rejected r) :
    (runCachedRoute st c now m u hr).response =
      { status := 429, body := rateLimitBody r } ∧
    (runCachedRoute st c now m u hr).state.cache = st.cache ∧
    (runCachedRoute st c now m u hr).upstreamCalls = 0 ∧
    (∀ (k : String) (t : Nat),
      cacheLookup (runCachedRoute st c now m u hr).state.cache k t =
        cacheLookup st.cache k t) := by
  rw [runCachedRoute_rejected st c now m u hr r hrej]
  exact ⟨rfl, rfl, rfl, fun k t => rfl⟩

/-- Claim C10, witness: a client at the limit is rejected with
`retryAfter = 60` and the (empty) cache stays empty. -/
theorem rateLimitRejectionNotCached_witness :
    (runCachedRoute ⟨[], [("c", ⟨100, 60000⟩)]⟩ "c" 0 "GET"
        "/api/pexels?url=q" ({ status := 200, body := .payload "v" }, 1)).response =
      { status := 429, body := rateLimitBody 60 } ∧
    (runCachedRoute ⟨[], [("c", ⟨100, 60000⟩)]⟩ "c" 0 "GET"
        "/api/pexels?url=q"
        ({ status := 200, body := .payload "v" }, 1)).state.cache = [] := by
  obtain ⟨h1, h2, -, -⟩ := rateLimitRejectionNotCached
    ⟨[], [("c", ⟨100, 60000⟩)]⟩ "c" 0 "GET" "/api/pexels?url=q"
    ({ status := 200, body := .payload "v" }, 1) 60 (by decide)
  exact ⟨h1, h2⟩

end AudiomoshProxy
